import Mathlib

/-!
Shallow embedding of the prompt-dj control core: the per-prompt controller
state machine (src/components/PromptController.ts), the weight knob value
mapping (src/components/WeightKnob.ts), the prompt collection store
(src/components/PromptDjMidi.ts, also src/unnamed/part_002), and the
background gradient derivation (src/unnamed/part_002).  Real-number
arithmetic of the source is embedded over the exact rationals.
-/

namespace PromptDj

/-- MIDI Control-Change event detail, as delivered on the cc-message event
by the MidiDispatcher collaborator (src/types: ControlChange). -/
structure ControlChange where
  channel : Nat
  cc : Nat
  value : Nat
deriving DecidableEq, Repr

/-- Detail of a prompt-changed notification, i.e. the Prompt record shape
dispatched by PromptController.dispatchPromptChange. -/
structure Prompt where
  promptId : String
  text : String
  weight : Rat
  cc : Nat
  color : String
deriving DecidableEq, Repr

/-- Observable per-element state of one PromptController: its reactive
properties promptId, text, weight, color, cc, channel and learnMode. -/
structure PCState where
  promptId : String
  text : String
  weight : Rat
  color : String
  cc : Nat
  channel : Nat
  learnMode : Bool
deriving DecidableEq, Repr

/-- PromptController.dispatchPromptChange: the CustomEvent detail carries
promptId, text, weight, cc and color of the current state. -/
def dispatchPromptChange (s : PCState) : Prompt :=
  { promptId := s.promptId
    text := s.text
    weight := s.weight
    cc := s.cc
    color := s.color }

/-- The cc-message listener installed in PromptController.connectedCallback:
in learn mode the event is captured as the new (cc, channel) binding and
learn mode is cleared; otherwise, when the event cc matches the bound cc,
the weight is set to (value / 127) * 2.  Returns the updated state and the
list of prompt-changed notifications dispatched by this handler. -/
def onCcMessage (s : PCState) (e : ControlChange) : PCState × List Prompt :=
  if s.learnMode then
    let s1 := { s with cc := e.cc, channel := e.channel, learnMode := false }
    (s1, [dispatchPromptChange s1])
  else if e.cc = s.cc then
    let s1 := { s with weight := (e.value : Rat) / 127 * 2 }
    (s1, [dispatchPromptChange s1])
  else
    (s, [])

/-- PromptController.toggleLearnMode: flips this instance's learnMode flag
and touches nothing else. -/
def toggleLearnMode (s : PCState) : PCState :=
  { s with learnMode := !s.learnMode }

/-- A click on the midi indicator of the prompt at index j of the grid:
only that instance's toggleLearnMode runs; every other controller state is
untouched (there is no cross-instance coordination in the source). -/
def toggleLearnAt (ps : List PCState) (j : Nat) : List PCState :=
  match ps, j with
  | [], _ => []
  | p :: rest, 0 => toggleLearnMode p :: rest
  | p :: rest, Nat.succ j1 => p :: toggleLearnAt rest j1

/-- The MidiDispatcher dispatches each cc-message event to every connected
PromptController; each runs its own connectedCallback listener. -/
def broadcastCc (ps : List PCState) (e : ControlChange) : List PCState :=
  ps.map (fun s => (onCcMessage s e).1)

/-- Clamp used by WeightKnob on every value write:
Math.max(0, Math.min(2, v)). -/
def clampWeight (v : Rat) : Rat :=
  max 0 (min 2 v)

/-- WeightKnob.handlePointerMove: value := dragStartValue + delta * 0.01
with delta = dragStartPos - clientY, then clamped to [0, 2]. -/
def handlePointerMove (dragStartPos dragStartValue clientY : Rat) : Rat :=
  clampWeight (dragStartValue + (dragStartPos - clientY) * (1 / 100))

/-- WeightKnob.handleWheel: value := value + deltaY * -0.0025, then clamped
to [0, 2]. -/
def handleWheel (value deltaY : Rat) : Rat :=
  clampWeight (value + deltaY * (-(1 / 400)))

/-- State of the PromptDjMidi collection store.  JavaScript Map values are
references to shared Prompt record objects, so the store is embedded with an
explicit heap: prompts is the insertion-ordered map from prompt id to the
address of its record, and heap gives the record currently at each address. -/
structure Store where
  heap : Nat → Prompt
  prompts : List (String × Nat)

/-- Lookup of this.prompts.get(promptId): the address bound to an id in the
insertion-ordered map, if present. -/
def lookupAddr (m : List (String × Nat)) (id : String) : Option Nat :=
  (m.find? (fun kv => kv.1 == id)).map (fun kv => kv.2)

/-- In-place mutation of the record object at one heap address. -/
def heapWrite (h : Nat → Prompt) (a : Nat) (p : Prompt) : Nat → Prompt :=
  fun x => if x = a then p else h x

/-- Outcome of one change notification at the store: either a prompts-changed
snapshot was published, or console.error reported an unknown prompt id. -/
inductive ApplyOutcome where
  | published (snap : List (String × Nat)) : ApplyOutcome
  | errorReported (id : String) : ApplyOutcome

/-- PromptDjMidi.handlePromptChanged: look the id up in this.prompts; when
absent, console.error and return with nothing changed.  Otherwise mutate the
found record object in place (text, weight, cc), build newPrompts as a copy
of the map rebound to the same record reference (the binding content is
unchanged since the id was already a key), install it and publish it as the
prompts-changed snapshot. -/
def handlePromptChanged (st : Store) (n : Prompt) : Store × ApplyOutcome :=
  match lookupAddr st.prompts n.promptId with
  | none => (st, ApplyOutcome.errorReported n.promptId)
  | some a =>
    let r0 := st.heap a
    let r1 := { r0 with text := n.text, weight := n.weight, cc := n.cc }
    let heap1 := heapWrite st.heap a r1
    let prompts1 := st.prompts
    ({ heap := heap1, prompts := prompts1 }, ApplyOutcome.published prompts1)

/-- Reading a prompt through a held snapshot: the snapshot fixes the id to
address bindings, while the record content is whatever the shared heap now
holds at that address. -/
def readSnapshot (heap : Nat → Prompt) (snap : List (String × Nat)) (id : String) : Option Prompt :=
  (lookupAddr snap id).map heap

/-- Parallel text-editing sub-state of one PromptController: the reactive
state, the last committed text (lastValidText) and the contenteditable DOM
content of the text span (textInput.textContent). -/
structure TextEdit where
  s : PCState
  lastValidText : String
  domText : String
deriving DecidableEq, Repr

/-- PromptController.resetText: restore both the text property and the DOM
content to the last committed text. -/
def resetText (t : TextEdit) : TextEdit :=
  { t with s := { t.s with text := t.lastValidText }, domText := t.lastValidText }

/-- JavaScript String.prototype.trim: drop leading and trailing whitespace
characters. -/
def jsTrim (s : String) : String :=
  String.mk (((s.data.dropWhile Char.isWhitespace).reverse.dropWhile Char.isWhitespace).reverse)

/-- PromptController.updateText, the blur handler: trim the DOM content; an
empty result reverts via resetText, otherwise the trimmed text is committed;
either way one prompt-changed notification is dispatched. -/
def updateText (t : TextEdit) : TextEdit × List Prompt :=
  let newText := jsTrim t.domText
  if newText = "" then
    let t1 := resetText t
    (t1, [dispatchPromptChange t1.s])
  else
    let t1 := { t with s := { t.s with text := newText }, lastValidText := newText }
    (t1, [dispatchPromptChange t1.s])

/-- PromptController.onKeyDown on Escape: resetText, then textInput.blur(),
whose blur event synchronously runs updateText. -/
def onKeyDownEscape (t : TextEdit) : TextEdit × List Prompt :=
  updateText (resetText t)

/-- Attributes handed to the weight-knob child by PromptController.render:
the knob value is this.weight as is, while color and audioLevel are replaced
by a grey and by zero when the prompt is filtered. -/
structure KnobProps where
  value : Rat
  color : String
  audioLevel : Rat
deriving DecidableEq, Repr

/-- The weight-knob bindings computed in PromptController.render. -/
def renderKnobProps (s : PCState) (filtered : Bool) (audioLevel : Rat) : KnobProps :=
  { value := s.weight
    color := if filtered then "#888" else s.color
    audioLevel := if filtered then 0 else audioLevel }

/-- PromptDjMidi.renderPrompts marks a prompt filtered exactly when the
externally supplied filteredPrompts set contains its text. -/
def promptFiltered (filteredPrompts : List String) (p : Prompt) : Bool :=
  filteredPrompts.contains p.text

/-- Controller state induced by the attribute bindings of renderPrompts:
promptId, cc, text, weight and color come from the prompt record; channel
and learnMode keep their element defaults. -/
def pcStateOfPrompt (p : Prompt) : PCState :=
  { promptId := p.promptId
    text := p.text
    weight := p.weight
    color := p.color
    cc := p.cc
    channel := 0
    learnMode := false }

/-- Knob attributes a prompt record ends up with after renderPrompts feeds a
PromptController whose render computes the knob bindings. -/
def renderedKnobFor (filteredPrompts : List String) (audioLevel : Rat) (p : Prompt) : KnobProps :=
  renderKnobProps (pcStateOfPrompt p) (promptFiltered filteredPrompts p) audioLevel

/-- Clamp to [0, 1] defined inside makeBackground (src/unnamed/part_002). -/
def clamp01 (v : Rat) : Rat :=
  min (max v 0) 1

/-- MAX_WEIGHT constant of makeBackground. -/
def MAX_WEIGHT : Rat := 1 / 2

/-- MAX_ALPHA constant of makeBackground. -/
def MAX_ALPHA : Rat := 3 / 5

/-- Per-prompt alpha fraction computed in makeBackground:
clamp01(p.weight / MAX_WEIGHT) * MAX_ALPHA. -/
def alphaPct (w : Rat) : Rat :=
  clamp01 (w / MAX_WEIGHT) * MAX_ALPHA

/-- Math.round: round half away from zero toward positive infinity, as in
JavaScript, on exact rationals. -/
def jsRound (x : Rat) : Int :=
  Int.floor (x + 1 / 2)

/-- The alpha byte of makeBackground: Math.round(alphaPct * 0xff). -/
def alphaByte (w : Rat) : Int :=
  jsRound (alphaPct w * 255)

/-- Fixture: a controller currently armed for learn. -/
def exA : PCState :=
  { promptId := "pA", text := "alpha", weight := 1, color := "#fff"
    cc := 3, channel := 0, learnMode := true }

/-- Fixture: a second, idle controller. -/
def exB : PCState :=
  { promptId := "pB", text := "beta", weight := 0, color := "#000"
    cc := 4, channel := 0, learnMode := false }

/-- Fixture: a prompt record before a change notification is applied. -/
def cexPromptOld : Prompt :=
  { promptId := "p1", text := "old", weight := 1, cc := 0, color := "#fff" }

/-- Fixture: a one-prompt store whose map binds p1 to heap address 0. -/
def cexStore : Store :=
  { heap := fun _ => cexPromptOld, prompts := [("p1", 0)] }

/-- Fixture: a change notification for p1 carrying new text, weight, cc. -/
def cexNotif : Prompt :=
  { promptId := "p1", text := "new", weight := 1, cc := 5, color := "#fff" }

/-- Fixture: a change notification whose id p2 is absent from cexStore. -/
def cexNotifUnknown : Prompt :=
  { promptId := "p2", text := "x", weight := 0, cc := 9, color := "#0f0" }

/-- Fixture: a text-edit sub-state mid edit, with committed text alpha and an
in-progress DOM content alph. -/
def exEdit : TextEdit :=
  { s := { promptId := "pA", text := "alpha", weight := 1, color := "#fff"
           cc := 3, channel := 0, learnMode := false }
    lastValidText := "alpha"
    domText := "alph" }

/-- Fixture: a prompt whose text is in the filter set of the C8 scenario. -/
def pFiltered : Prompt :=
  { promptId := "p1", text := "riff", weight := 1, cc := 0, color := "#f00" }

theorem clampWeight_nonneg (v : Rat) : 0 ≤ clampWeight v :=
  le_max_left 0 (min 2 v)

theorem clampWeight_le_two (v : Rat) : clampWeight v ≤ 2 :=
  max_le (by norm_num) (min_le_left 2 v)

theorem clampWeight_of_mem (v : Rat) (h0 : 0 ≤ v) (h2 : v ≤ 2) : clampWeight v = v := by
  rw [clampWeight, min_eq_right h2, max_eq_right h0]

theorem ccWeight_nonneg (value : Nat) : 0 ≤ (value : Rat) / 127 * 2 := by positivity

theorem ccWeight_le_two (value : Nat) (hv : value ≤ 127) : (value : Rat) / 127 * 2 ≤ 2 := by
  have h : (value : Rat) ≤ 127 := by exact_mod_cast hv
  rw [div_mul_eq_mul_div, div_le_iff₀ (by norm_num : (0:Rat) < 127)]
  linarith

theorem onCcMessage_weight (s : PCState) (e : ControlChange) :
    ((onCcMessage s e).1).weight = s.weight
    ∨ ((onCcMessage s e).1).weight = (e.value : Rat) / 127 * 2 := by
  rw [onCcMessage]
  by_cases hl : s.learnMode <;> by_cases hc : e.cc = s.cc <;> simp [hl, hc]

theorem toggleLearnAt_other (ps : List PCState) (i j : Nat) (hne : i ≠ j) :
    (toggleLearnAt ps j)[i]? = ps[i]? := by
  induction ps generalizing i j with
  | nil => simp [toggleLearnAt]
  | cons p rest ih =>
    cases j with
    | zero =>
      cases i with
      | zero => exact absurd rfl hne
      | succ i1 => simp [toggleLearnAt]
    | succ j1 =>
      cases i with
      | zero => simp [toggleLearnAt]
      | succ i1 =>
        simp [toggleLearnAt]
        exact ih i1 j1 (fun hh => hne (by rw [hh]))

theorem toggleLearnAt_self (ps : List PCState) (j : Nat) :
    (toggleLearnAt ps j)[j]? = ps[j]?.map toggleLearnMode := by
  induction ps generalizing j with
  | nil => simp [toggleLearnAt]
  | cons p rest ih =>
    cases j with
    | zero => simp [toggleLearnAt]
    | succ j1 => simpa [toggleLearnAt] using ih j1

/-- Claim C1 counterexample: with prompt pA armed for learn, clicking the
learn toggle of prompt pB does not clear pA; afterwards querying pA returns
true and both prompts are armed at once, so the claimed last-writer-wins
exclusivity fails on the code. -/
theorem c1_cex_no_exclusivity :
    exA.learnMode = true
    ∧ ((toggleLearnAt [exA, exB] 1)[0]?).map PCState.learnMode = some true
    ∧ ((toggleLearnAt [exA, exB] 1)[1]?).map PCState.learnMode = some true := by
  refine ⟨by decide, by decide, by decide⟩

/-- Claim C1 amended: learn mode is a purely per-prompt flag with no global
exclusivity; toggling learn mode on the prompt at index j flips only that
prompt's flag and leaves every other prompt's state, in particular its learn
mode, unchanged, so several prompts can be armed simultaneously. -/
theorem c1_amended_per_prompt (ps : List PCState) (i j : Nat) (hne : i ≠ j) :
    (toggleLearnAt ps j)[i]? = ps[i]?
    ∧ (toggleLearnAt ps j)[j]? = ps[j]?.map toggleLearnMode
    ∧ (∀ s : PCState, (toggleLearnMode s).learnMode = !s.learnMode) :=
  ⟨toggleLearnAt_other ps i j hne, toggleLearnAt_self ps j, fun _ => rfl⟩

/-- Claim C1 amended witness at the two-prompt fixture grid. -/
theorem c1_amended_witness :
    (0 : Nat) ≠ 1
    ∧ ((toggleLearnAt [exA, exB] 1)[0]? = [exA, exB][0]?
      ∧ (toggleLearnAt [exA, exB] 1)[1]? = [exA, exB][1]?.map toggleLearnMode
      ∧ (∀ s : PCState, (toggleLearnMode s).learnMode = !s.learnMode)) :=
  ⟨by decide, c1_amended_per_prompt [exA, exB] 0 1 (by decide)⟩

/-- Claim C2: every weight produced by an input path lies in [0, 2] - the
pointer-drag and wheel paths by the explicit clamp, and the MIDI CC path for
any 7-bit controller value, given a pre-invariant weight. -/
theorem c2_weight_range (p v y cur d : Rat) (s : PCState) (e : ControlChange)
    (hw0 : 0 ≤ s.weight) (hw2 : s.weight ≤ 2) (hv : e.value ≤ 127) :
    (0 ≤ handlePointerMove p v y ∧ handlePointerMove p v y ≤ 2)
    ∧ (0 ≤ handleWheel cur d ∧ handleWheel cur d ≤ 2)
    ∧ (0 ≤ ((onCcMessage s e).1).weight ∧ ((onCcMessage s e).1).weight ≤ 2) := by
  refine ⟨⟨clampWeight_nonneg _, clampWeight_le_two _⟩,
    ⟨clampWeight_nonneg _, clampWeight_le_two _⟩, ?_⟩
  rcases onCcMessage_weight s e with h | h <;> rw [h]
  · exact ⟨hw0, hw2⟩
  · exact ⟨ccWeight_nonneg e.value, ccWeight_le_two e.value hv⟩

/-- Claim C2 witness at a concrete drag, wheel tick and CC event. -/
theorem c2_witness :
    (0 ≤ exB.weight ∧ exB.weight ≤ 2 ∧ (64 : Nat) ≤ 127)
    ∧ ((0 ≤ handlePointerMove 100 1 50 ∧ handlePointerMove 100 1 50 ≤ 2)
      ∧ (0 ≤ handleWheel 1 8 ∧ handleWheel 1 8 ≤ 2)
      ∧ (0 ≤ ((onCcMessage exB ⟨0, 4, 64⟩).1).weight
        ∧ ((onCcMessage exB ⟨0, 4, 64⟩).1).weight ≤ 2)) :=
  ⟨⟨by decide, by decide, by decide⟩,
    c2_weight_range 100 1 50 1 8 exB ⟨0, 4, 64⟩ (by decide) (by decide) (by decide)⟩

/-- Claim C4: while a prompt is in learn mode, the next Control-Change event
from any channel and cc sets the binding to the event's cc and channel,
leaves the weight unchanged, clears learn mode, emits exactly one change
notification with the new binding, and any subsequent event leaves the
binding untouched. -/
theorem c4_learn_capture (s : PCState) (e : ControlChange) (h : s.learnMode = true) :
    ((onCcMessage s e).1.cc = e.cc ∧ (onCcMessage s e).1.channel = e.channel
      ∧ (onCcMessage s e).1.weight = s.weight ∧ (onCcMessage s e).1.learnMode = false)
    ∧ (onCcMessage s e).2 =
        [{ promptId := s.promptId, text := s.text, weight := s.weight, cc := e.cc, color := s.color }]
    ∧ (∀ e2 : ControlChange, (onCcMessage (onCcMessage s e).1 e2).1.cc = e.cc
        ∧ (onCcMessage (onCcMessage s e).1 e2).1.channel = e.channel) := by
  refine ⟨?_, ?_, ?_⟩
  · simp [onCcMessage, h]
  · simp [onCcMessage, h, dispatchPromptChange]
  · intro e2
    by_cases hc : e2.cc = e.cc <;> simp [onCcMessage, h, hc]

/-- Claim C4 witness: the armed fixture prompt captures event
channel 2, cc 5, value 10. -/
theorem c4_witness :
    exA.learnMode = true
    ∧ (((onCcMessage exA ⟨2, 5, 10⟩).1.cc = 5 ∧ (onCcMessage exA ⟨2, 5, 10⟩).1.channel = 2
      ∧ (onCcMessage exA ⟨2, 5, 10⟩).1.weight = exA.weight
      ∧ (onCcMessage exA ⟨2, 5, 10⟩).1.learnMode = false)
    ∧ (onCcMessage exA ⟨2, 5, 10⟩).2 =
        [{ promptId := exA.promptId, text := exA.text, weight := exA.weight, cc := 5, color := exA.color }]
    ∧ (∀ e2 : ControlChange, (onCcMessage (onCcMessage exA ⟨2, 5, 10⟩).1 e2).1.cc = 5
        ∧ (onCcMessage (onCcMessage exA ⟨2, 5, 10⟩).1 e2).1.channel = 2)) :=
  ⟨by decide, c4_learn_capture exA ⟨2, 5, 10⟩ (by decide)⟩

theorem onCcMessage_not_learn (s : PCState) (e : ControlChange) (h : s.learnMode = false) :
    onCcMessage s e =
      if e.cc = s.cc then
        ({ s with weight := (e.value : Rat) / 127 * 2 },
          [{ promptId := s.promptId, text := s.text, weight := (e.value : Rat) / 127 * 2,
             cc := s.cc, color := s.color }])
      else (s, []) := by
  by_cases hc : e.cc = s.cc <;> simp [onCcMessage, h, hc, dispatchPromptChange]

/-- Claim C5: with no prompt in learn mode, a Control-Change event with a
7-bit value is delivered to every prompt whose bound cc equals the event's
cc, setting its weight to clamp((value / 127) * 2, 0, 2), while every other
prompt is untouched; the result is independent of the event's channel, and
value 0 gives weight 0, value 127 gives weight 2. -/
theorem c5_value_routing (ps : List PCState) (e : ControlChange)
    (hlearn : ∀ p ∈ ps, p.learnMode = false) (hv : e.value ≤ 127) :
    (∀ (i : Nat) (p : PCState), ps[i]? = some p →
      (broadcastCc ps e)[i]? =
        some (if e.cc = p.cc then { p with weight := clampWeight ((e.value : Rat) / 127 * 2) } else p))
    ∧ (∀ c, broadcastCc ps { e with channel := c } = broadcastCc ps e)
    ∧ (e.value = 0 → clampWeight ((e.value : Rat) / 127 * 2) = 0)
    ∧ (e.value = 127 → clampWeight ((e.value : Rat) / 127 * 2) = 2) := by
  have hclamp : clampWeight ((e.value : Rat) / 127 * 2) = (e.value : Rat) / 127 * 2 :=
    clampWeight_of_mem _ (ccWeight_nonneg e.value) (ccWeight_le_two e.value hv)
  refine ⟨?_, ?_, ?_, ?_⟩
  · intro i p hp
    have hmem : p ∈ ps := List.getElem?_mem hp
    have hl := hlearn p hmem
    rw [broadcastCc, List.getElem?_map, hp, Option.map_some']
    rw [onCcMessage_not_learn p e hl, hclamp]
    by_cases hc : e.cc = p.cc <;> simp [hc]
  · intro c
    rw [broadcastCc, broadcastCc]
    apply List.map_congr_left
    intro p hmem
    have hl := hlearn p hmem
    rw [onCcMessage_not_learn p _ hl, onCcMessage_not_learn p e hl]
  · intro h0; rw [h0]; norm_num [clampWeight]
  · intro h127; rw [h127]; norm_num [clampWeight]

/-- Claim C5 witness: a full-scale event on cc 4 routed over the two-prompt
fixture grid with no prompt armed. -/
theorem c5_witness :
    ((∀ p ∈ [exB], p.learnMode = false) ∧ (127 : Nat) ≤ 127)
    ∧ ((∀ (i : Nat) (p : PCState), [exB][i]? = some p →
        (broadcastCc [exB] ⟨2, 4, 127⟩)[i]? =
          some (if 4 = p.cc then { p with weight := clampWeight ((127 : Rat) / 127 * 2) } else p))
      ∧ (∀ c, broadcastCc [exB] ⟨c, 4, 127⟩ = broadcastCc [exB] ⟨2, 4, 127⟩)
      ∧ ((127 : Nat) = 0 → clampWeight ((127 : Rat) / 127 * 2) = 0)
      ∧ ((127 : Nat) = 127 → clampWeight ((127 : Rat) / 127 * 2) = 2)) :=
  ⟨⟨by decide, by decide⟩, c5_value_routing [exB] ⟨2, 4, 127⟩ (by decide) (by decide)⟩

theorem heapWrite_read (h : Nat → Prompt) (a : Nat) (p : Prompt) : heapWrite h a p a = p := by
  simp [heapWrite]

theorem heapWrite_twice (h : Nat → Prompt) (a : Nat) (p q : Prompt) :
    heapWrite (heapWrite h a p) a q = heapWrite h a q := by
  funext x
  by_cases hx : x = a <;> simp [heapWrite, hx]

/-- Claim C3 counterexample: applying a change notification mutates the
shared prompt record in place, so an observer holding the snapshot published
before the change reads the newly applied text through it, not the old text
the claim promises. -/
theorem c3_cex_snapshot_sees_new_values :
    cexPromptOld.text = "old"
    ∧ (readSnapshot (handlePromptChanged cexStore cexNotif).1.heap
        cexStore.prompts "p1").map Prompt.text = some "new"
    ∧ (readSnapshot (handlePromptChanged cexStore cexNotif).1.heap
        cexStore.prompts "p1").map Prompt.text ≠ some "old" := by
  refine ⟨by decide, by decide, by decide⟩

/-- Claim C3 amended: on an applied change the store publishes a fresh Map
container whose id-to-record bindings equal the previous ones, but the bound
prompt record itself is mutated in place; an observer holding the prior
snapshot therefore reads the newly applied text, weight and cc through the
shared record rather than a stable copy of the old values. -/
theorem c3_amended_aliasing (st : Store) (n : Prompt) (a : Nat)
    (ha : lookupAddr st.prompts n.promptId = some a) :
    (handlePromptChanged st n).1.prompts = st.prompts
    ∧ (handlePromptChanged st n).2 = ApplyOutcome.published (handlePromptChanged st n).1.prompts
    ∧ readSnapshot (handlePromptChanged st n).1.heap st.prompts n.promptId =
        some { st.heap a with text := n.text, weight := n.weight, cc := n.cc } := by
  refine ⟨?_, ?_, ?_⟩
  · simp [handlePromptChanged, ha]
  · simp [handlePromptChanged, ha]
  · simp [handlePromptChanged, ha, readSnapshot, heapWrite_read]

/-- Claim C3 amended witness at the one-prompt fixture store. -/
theorem c3_witness :
    lookupAddr cexStore.prompts cexNotif.promptId = some 0
    ∧ ((handlePromptChanged cexStore cexNotif).1.prompts = cexStore.prompts
      ∧ (handlePromptChanged cexStore cexNotif).2 =
          ApplyOutcome.published (handlePromptChanged cexStore cexNotif).1.prompts
      ∧ readSnapshot (handlePromptChanged cexStore cexNotif).1.heap
          cexStore.prompts cexNotif.promptId =
          some { cexStore.heap 0 with
                   text := cexNotif.text, weight := cexNotif.weight, cc := cexNotif.cc }) :=
  ⟨by decide, c3_amended_aliasing cexStore cexNotif 0 (by decide)⟩

/-- Claim C6: a change notification whose prompt id is absent from the
collection is discarded - the error is reported with the offending id, the
store is left exactly unchanged, and no prompts-changed snapshot is
published. -/
theorem c6_unknown_id_discarded (st : Store) (n : Prompt)
    (h : lookupAddr st.prompts n.promptId = none) :
    handlePromptChanged st n = (st, ApplyOutcome.errorReported n.promptId) := by
  simp [handlePromptChanged, h]

/-- Claim C6 witness: a notification for the unknown id p2 against the
one-prompt fixture store. -/
theorem c6_witness :
    lookupAddr cexStore.prompts cexNotifUnknown.promptId = none
    ∧ handlePromptChanged cexStore cexNotifUnknown =
        (cexStore, ApplyOutcome.errorReported cexNotifUnknown.promptId) :=
  ⟨by decide, c6_unknown_id_discarded cexStore cexNotifUnknown (by decide)⟩

/-- Claim C9: applying the same change notification twice to the store
yields exactly the state and outcome of applying it once - the same ids in
the same insertion order, bound to records with the same text, weight, cc
and color. -/
theorem c9_store_idempotent (st : Store) (n : Prompt) :
    handlePromptChanged (handlePromptChanged st n).1 n = handlePromptChanged st n := by
  cases h : lookupAddr st.prompts n.promptId with
  | none => simp [handlePromptChanged, h]
  | some a => simp [handlePromptChanged, h, heapWrite_read, heapWrite_twice]

/-- Claim C7 counterexample: pressing Escape mid edit does revert the text
to the last committed value, but the blur raised by exiting the edit runs
the commit handler, which dispatches a prompt-changed notification - so the
part of the claim saying no change notification is emitted for Escape is
false on the code. -/
theorem c7_cex_escape_notifies :
    (onKeyDownEscape exEdit).1.s.text = "alpha"
    ∧ (onKeyDownEscape exEdit).2 =
        [{ promptId := "pA", text := "alpha", weight := 1, cc := 3, color := "#fff" }]
    ∧ (onKeyDownEscape exEdit).2 ≠ [] := by
  refine ⟨by decide, by decide, by decide⟩

/-- Claim C7 amended: pressing Escape during a text edit reverts the
prompt's text to the last committed value and exits the edit; the exit's
blur handler then emits exactly one change notification carrying the
reverted last-committed text, never the discarded in-progress edit text. -/
theorem c7_amended_escape (t : TextEdit)
    (h1 : jsTrim t.lastValidText = t.lastValidText) (h2 : t.lastValidText ≠ "") :
    (onKeyDownEscape t).1.s.text = t.lastValidText
    ∧ (onKeyDownEscape t).1.lastValidText = t.lastValidText
    ∧ (onKeyDownEscape t).2 =
        [{ promptId := t.s.promptId, text := t.lastValidText, weight := t.s.weight,
           cc := t.s.cc, color := t.s.color }] := by
  rw [onKeyDownEscape]
  simp [updateText, resetText, h1, h2, dispatchPromptChange]

/-- Claim C7 amended witness at the mid-edit fixture. -/
theorem c7_witness :
    (jsTrim exEdit.lastValidText = exEdit.lastValidText ∧ exEdit.lastValidText ≠ "")
    ∧ ((onKeyDownEscape exEdit).1.s.text = exEdit.lastValidText
      ∧ (onKeyDownEscape exEdit).1.lastValidText = exEdit.lastValidText
      ∧ (onKeyDownEscape exEdit).2 =
          [{ promptId := exEdit.s.promptId, text := exEdit.lastValidText,
             weight := exEdit.s.weight, cc := exEdit.s.cc, color := exEdit.s.color }]) :=
  ⟨⟨by decide, by decide⟩, c7_amended_escape exEdit (by decide) (by decide)⟩

/-- Claim C8 counterexample: for a prompt whose text is in the filter set,
rendering hands the knob the stored weight unchanged - here 1, not the 0 the
claim promises; only the color and the audio level are replaced. -/
theorem c8_cex_weight_passed_through :
    promptFiltered ["riff"] pFiltered = true
    ∧ (renderedKnobFor ["riff"] (1/4) pFiltered).value = pFiltered.weight
    ∧ pFiltered.weight ≠ 0 := by
  refine ⟨by decide, by decide, by decide⟩

/-- Claim C8 amended: for every prompt whose text is in the filter set,
rendering forces the knob color to grey and the audio level fed to the knob
to 0, while the weight fed to rendering and the stored weight field are both
left unchanged. -/
theorem c8_amended_filtered_render (fp : List String) (al : Rat) (p : Prompt)
    (h : promptFiltered fp p = true) :
    renderedKnobFor fp al p = { value := p.weight, color := "#888", audioLevel := 0 } := by
  simp [renderedKnobFor, renderKnobProps, pcStateOfPrompt, h]

/-- Claim C8 amended witness at the filtered fixture prompt. -/
theorem c8_witness :
    promptFiltered ["riff"] pFiltered = true
    ∧ renderedKnobFor ["riff"] (1/4) pFiltered =
        { value := pFiltered.weight, color := "#888", audioLevel := 0 } :=
  ⟨by decide, c8_amended_filtered_render ["riff"] (1/4) pFiltered (by decide)⟩

theorem clamp01_mono (a b : Rat) (h : a ≤ b) : clamp01 a ≤ clamp01 b :=
  min_le_min (max_le_max h le_rfl) le_rfl

theorem div_maxWeight (x : Rat) : x / MAX_WEIGHT = 2 * x := by
  rw [MAX_WEIGHT]; ring

theorem alphaPct_mono (a b : Rat) (h : a ≤ b) : alphaPct a ≤ alphaPct b := by
  unfold alphaPct
  have hc : clamp01 (a / MAX_WEIGHT) ≤ clamp01 (b / MAX_WEIGHT) := by
    apply clamp01_mono
    rw [div_maxWeight, div_maxWeight]
    linarith
  have hma : (0:Rat) ≤ MAX_ALPHA := by norm_num [MAX_ALPHA]
  exact mul_le_mul_of_nonneg_right hc hma

theorem alphaByte_mono (a b : Rat) (h : a ≤ b) : alphaByte a ≤ alphaByte b := by
  unfold alphaByte jsRound
  apply Int.floor_le_floor
  have := alphaPct_mono a b h
  nlinarith [this]

theorem alphaPct_sat (w : Rat) (h : 1/2 ≤ w) : alphaPct w = MAX_ALPHA := by
  unfold alphaPct
  have h1 : (1:Rat) ≤ w / MAX_WEIGHT := by rw [div_maxWeight]; linarith
  have h0 : (0:Rat) ≤ w / MAX_WEIGHT := by linarith
  rw [clamp01, max_eq_left h0, min_eq_right h1, one_mul]

/-- Claim C10: in the background gradient derivation the per-prompt alpha is
a nondecreasing function of the weight, both as the exact fraction and as
the rounded byte, and it saturates from weight 1/2 on - a quarter of the way
through the [0, 2] weight range - at the maximum MAX_ALPHA = 0.6 of full
opacity, byte value 153. -/
theorem c10_alpha_monotone_saturating (w1 w2 w : Rat) (hle : w1 ≤ w2) (hsat : 1/2 ≤ w) :
    alphaPct w1 ≤ alphaPct w2
    ∧ alphaByte w1 ≤ alphaByte w2
    ∧ alphaPct w = MAX_ALPHA
    ∧ alphaByte w = 153
    ∧ MAX_WEIGHT = (2 - 0) / 4 := by
  refine ⟨alphaPct_mono w1 w2 hle, alphaByte_mono w1 w2 hle, alphaPct_sat w hsat, ?_, ?_⟩
  · rw [alphaByte, alphaPct_sat w hsat, jsRound]
    have hv : MAX_ALPHA * 255 + 1 / 2 = (307:Rat)/2 := by norm_num [MAX_ALPHA]
    rw [hv, Int.floor_eq_iff]
    constructor <;> norm_num
  · norm_num [MAX_WEIGHT]

/-- Claim C10 witness at weights 0, 1 and the saturated weight 1. -/
theorem c10_witness :
    ((0:Rat) ≤ 1 ∧ (1:Rat)/2 ≤ 1)
    ∧ (alphaPct 0 ≤ alphaPct 1
      ∧ alphaByte 0 ≤ alphaByte 1
      ∧ alphaPct 1 = MAX_ALPHA
      ∧ alphaByte 1 = 153
      ∧ MAX_WEIGHT = (2 - 0) / 4) :=
  ⟨⟨by norm_num, by norm_num⟩,
    c10_alpha_monotone_saturating 0 1 1 (by norm_num) (by norm_num)⟩

end PromptDj
